import Mathlib

/-!
Verification of the CRM LLM-tool layer (`src/backend/src/llm_tools/crm_tools.py`).

The Python module is embedded shallowly:

* JSON-compatible Python values become the inductive `JVal`; Python dicts become
  ordered association lists (`Dict`), matching insertion order.
* The HTTP client (`CRMClient`) is modelled over an explicit `Transport` oracle
  that yields an HTTP status and parsed body, or a transport failure;
  `raise_for_status` follows the `requests` library semantics (raises exactly on
  status 400-599).
* At the toolkit layer the client is abstracted as an `Oracle`:
  a function from a `BackendCall` (method, path, query-or-body payload) to
  either a parsed JSON dict or an exception message, standing for
  `self.client.get/post/patch` calls.  Every toolkit-level function returns,
  next to its result, the list of backend calls it issued, in order.
* Python exceptions are `Except String`; a raised exception is an `.error`.
  Where the dispatch handler unpacks `**args` into typed parameters, arguments
  that do not fit the declared type hints are modelled as a `TypeError`
  failure inside the handler's catch-all `try` block, which matches where such
  a failure would surface in Python.
* `json.dumps(x)` is abstracted by returning the value `x` itself: the claims
  under study concern which value is serialized, not the rendered text.
-/

/-- JSON-compatible Python value. Numbers are modelled as integers (the module
only passes numeric arguments through unchanged, and Python truthiness of a
number is `x = 0` at integer points). -/
inductive JVal where
  | null
  | bool (b : Bool)
  | num (n : Int)
  | str (s : String)
  | arr (xs : List JVal)
  | obj (fields : List (String × JVal))

/-- A Python dict with JSON-compatible values, as an insertion-ordered
association list. -/
abbrev Dict := List (String × JVal)

/-- HTTP method used by `CRMClient`. -/
inductive Method where
  | GET
  | POST
  | PATCH
  | DELETE
deriving DecidableEq, Repr

/-- One request issued to the backend: method, path, and the query parameters
(for GET) or JSON body (for POST/PATCH). -/
structure BackendCall where
  method : Method
  path : String
  payload : Dict

/-- The CRM client as seen by the toolkit: each call either returns a parsed
JSON dict or raises (an exception whose `str` is the carried message). -/
abbrev Oracle := BackendCall → Except String Dict

/-- Python dict key assignment `d[k] = v`: overwrite in place if the key
exists, otherwise append. -/
def dictSet : Dict → String → JVal → Dict
  | [], k, v => [(k, v)]
  | (a, b) :: t, k, v => if a = k then (k, v) :: t else (a, b) :: dictSet t k v

/-- Query-parameter construction shared verbatim by `CRMToolkit.search_contacts`
and `SearchContactsTool._run` (the source duplicates this block): `limit` is
always included; each optional argument is appended only when Python-truthy
(not `None`, not empty, not zero), in source order. -/
def searchParams (query status : Option String) (tags : Option (List String))
    (min_engagement : Option Int) (limit : Int) : Dict :=
  [("limit", JVal.num limit)]
  ++ (match query with
      | some q => if q ≠ "" then [("query", JVal.str q)] else []
      | none => [])
  ++ (match status with
      | some s => if s ≠ "" then [("status", JVal.str s)] else []
      | none => [])
  ++ (match tags with
      | some ts => if ts ≠ [] then [("tags", JVal.str (String.intercalate "," ts))] else []
      | none => [])
  ++ (match min_engagement with
      | some m => if m ≠ 0 then [("min_engagement", JVal.num m)] else []
      | none => [])

/-- `CRMToolkit.search_contacts`: one GET on `/api/contacts` with the built
query parameters. -/
def CRMToolkit.search_contacts (backend : Oracle) (query status : Option String)
    (tags : Option (List String)) (min_engagement : Option Int) (limit : Int) :
    Except String Dict × List BackendCall :=
  let c : BackendCall := ⟨Method.GET, "/api/contacts", searchParams query status tags min_engagement limit⟩
  (backend c, [c])

/-- `CRMToolkit.get_contact`: GET the contact; when `include_timeline`, a second
GET for the timeline whose result is stored under the `timeline` key. -/
def CRMToolkit.get_contact (backend : Oracle) (contact_id : String)
    (include_timeline : Bool) : Except String Dict × List BackendCall :=
  let c1 : BackendCall := ⟨Method.GET, "/api/contacts/" ++ contact_id, []⟩
  match backend c1 with
  | Except.error e => (Except.error e, [c1])
  | Except.ok result =>
    if include_timeline then
      let c2 : BackendCall := ⟨Method.GET, "/api/contacts/" ++ contact_id ++ "/timeline", []⟩
      match backend c2 with
      | Except.error e => (Except.error e, [c1, c2])
      | Except.ok timeline => (Except.ok (dictSet result "timeline" (JVal.obj timeline)), [c1, c2])
    else (Except.ok result, [c1])

/-- `CRMToolkit.create_contact(**kwargs)`: POSTs the keyword arguments as the
body, unchanged. -/
def CRMToolkit.create_contact (backend : Oracle) (kwargs : Dict) :
    Except String Dict × List BackendCall :=
  let c : BackendCall := ⟨Method.POST, "/api/contacts", kwargs⟩
  (backend c, [c])

/-- `CRMToolkit.update_contact(contact_id, **kwargs)`: PATCHes the keyword
arguments as the body, unchanged. -/
def CRMToolkit.update_contact (backend : Oracle) (contact_id : String)
    (kwargs : Dict) : Except String Dict × List BackendCall :=
  let c : BackendCall := ⟨Method.PATCH, "/api/contacts/" ++ contact_id, kwargs⟩
  (backend c, [c])

/-- `CRMToolkit.log_interaction`: POST on `/api/timeline`; `metadata` is
included only when Python-truthy (present and non-empty). -/
def CRMToolkit.log_interaction (backend : Oracle) (contact_id ty content : String)
    (metadata : Option Dict) : Except String Dict × List BackendCall :=
  let data : Dict :=
    [("contact", JVal.str contact_id), ("type", JVal.str ty), ("content", JVal.str content)]
    ++ (match metadata with
        | some m => if m.isEmpty then [] else [("metadata", JVal.obj m)]
        | none => [])
  let c : BackendCall := ⟨Method.POST, "/api/timeline", data⟩
  (backend c, [c])

/-- `CRMToolkit.get_pipeline_summary`: GET on `/api/analytics/contacts`. -/
def CRMToolkit.get_pipeline_summary (backend : Oracle) (time_range : String) :
    Except String Dict × List BackendCall :=
  let c : BackendCall := ⟨Method.GET, "/api/analytics/contacts", [("time_range", JVal.str time_range)]⟩
  (backend c, [c])

example : dictSet [("id", JVal.str "c1")] "timeline" (JVal.obj []) =
    [("id", JVal.str "c1"), ("timeline", JVal.obj [])] := rfl

/-- `CRMConfig`: connection configuration with the source defaults. -/
structure CRMConfig where
  base_url : String := "http://localhost:8080"
  api_key : Option String := none
  timeout : Int := 30
deriving DecidableEq, Repr

/-- The `CRMConfig` produced by evaluating every dataclass field default. -/
def CRMConfig.default : CRMConfig := {}

/-- `CRMToolkit.__init__(base_url, api_key)`: builds
`CRMConfig(base_url=base_url, api_key=api_key)`; the constructor exposes no
timeout parameter, so `timeout` keeps the dataclass default. -/
def CRMToolkit.init (base_url : String) (api_key : Option String) : CRMConfig :=
  { base_url := base_url, api_key := api_key }

/-- `CRMClient`: the session headers set in `__init__` together with the
stored config. -/
structure CRMClient where
  config : CRMConfig
  headers : List (String × String)
deriving DecidableEq, Repr

/-- `CRMClient.__init__`: stores the config; sets the `Authorization` header
only when an api key is configured, and always the `Content-Type` header. -/
def CRMClient.init (config : CRMConfig) : CRMClient :=
  { config := config
    headers :=
      (match config.api_key with
       | some k => [("Authorization", "Bearer " ++ k)]
       | none => [])
      ++ [("Content-Type", "application/json")] }

/-- An HTTP response delivered to `CRMClient`: the status code and the result
of parsing the body as JSON (`resp.json()` raises on a non-JSON body). -/
structure HTTPResponse where
  status : Nat
  jsonBody : Except String Dict

/-- The network as an oracle: one request either reaches the server and yields
a response, or fails in transport (connection error / timeout). -/
abbrev Transport := BackendCall → Except String HTTPResponse

/-- Failure of one `CRMClient` call. -/
inductive ClientError where
  | http (status : Nat) (msg : String)
  | transport (msg : String)
  | parse (msg : String)

/-- `requests.Response.raise_for_status`: raises `HTTPError` exactly when the
status code is in 400-499 (client error) or 500-599 (server error). -/
def raise_for_status (resp : HTTPResponse) : Except ClientError Unit :=
  if 400 ≤ resp.status ∧ resp.status < 500 then
    Except.error (ClientError.http resp.status "Client Error")
  else if 500 ≤ resp.status ∧ resp.status < 600 then
    Except.error (ClientError.http resp.status "Server Error")
  else Except.ok ()

/-- The shared body of each `CRMClient` method: issue the one request, call
`raise_for_status`, then parse the body. The second component is the list of
requests put on the wire (always exactly one: no retries). -/
def sessionCall (t : Transport) (req : BackendCall) :
    Except ClientError Dict × List BackendCall :=
  (match t req with
   | Except.error e => Except.error (ClientError.transport e)
   | Except.ok resp =>
     match raise_for_status resp with
     | Except.error err => Except.error err
     | Except.ok () =>
       match resp.jsonBody with
       | Except.ok d => Except.ok d
       | Except.error m => Except.error (ClientError.parse m),
   [req])

/-- `CRMClient.get`. -/
def CRMClient.get (t : Transport) (path : String) (params : Dict) :
    Except ClientError Dict × List BackendCall :=
  sessionCall t ⟨Method.GET, path, params⟩

/-- `CRMClient.post`. -/
def CRMClient.post (t : Transport) (path : String) (data : Dict) :
    Except ClientError Dict × List BackendCall :=
  sessionCall t ⟨Method.POST, path, data⟩

/-- `CRMClient.patch`. -/
def CRMClient.patch (t : Transport) (path : String) (data : Dict) :
    Except ClientError Dict × List BackendCall :=
  sessionCall t ⟨Method.PATCH, path, data⟩

/-- `CRMClient.delete`. -/
def CRMClient.delete (t : Transport) (path : String) :
    Except ClientError Dict × List BackendCall :=
  sessionCall t ⟨Method.DELETE, path, []⟩

/-- Outcome of a LangChain tool `_run`: a returned value (the argument of
`json.dumps(result, indent=2)`), or a raised `ToolException` with its
message. -/
inductive LCOut where
  | ok (v : JVal)
  | toolError (msg : String)

/-- `SearchContactsTool._run`: builds the same query parameters as the facade
(the source duplicates the block verbatim), issues the GET, and wraps any
exception in `ToolException("Failed to search contacts: ...")`. -/
def SearchContactsTool.run (backend : Oracle) (query status : Option String)
    (tags : Option (List String)) (min_engagement : Option Int) (limit : Int) :
    LCOut × List BackendCall :=
  let c : BackendCall := ⟨Method.GET, "/api/contacts", searchParams query status tags min_engagement limit⟩
  match backend c with
  | Except.ok result => (LCOut.ok (JVal.obj result), [c])
  | Except.error e => (LCOut.toolError ("Failed to search contacts: " ++ e), [c])

/-- `GetContactTool._run`: GET the contact, optionally GET and merge the
timeline, wrapping any exception in `ToolException("Failed to get contact:
...")`. -/
def GetContactTool.run (backend : Oracle) (contact_id : String)
    (include_timeline : Bool) : LCOut × List BackendCall :=
  let c1 : BackendCall := ⟨Method.GET, "/api/contacts/" ++ contact_id, []⟩
  match backend c1 with
  | Except.error e => (LCOut.toolError ("Failed to get contact: " ++ e), [c1])
  | Except.ok result =>
    if include_timeline then
      let c2 : BackendCall := ⟨Method.GET, "/api/contacts/" ++ contact_id ++ "/timeline", []⟩
      match backend c2 with
      | Except.error e => (LCOut.toolError ("Failed to get contact: " ++ e), [c1, c2])
      | Except.ok timeline =>
        (LCOut.ok (JVal.obj (dictSet result "timeline" (JVal.obj timeline))), [c1, c2])
    else (LCOut.ok (JVal.obj result), [c1])

/-- Body construction in `CreateContactTool._run`: first name, last name and
status (default `"lead"`) always; each optional field appended only when
Python-truthy, in source order. -/
def createContactToolBody (first_name last_name : String)
    (email phone company : Option String) (status : String)
    (tags : Option (List String)) (notes : Option String) : Dict :=
  [("first_name", JVal.str first_name), ("last_name", JVal.str last_name),
   ("status", JVal.str status)]
  ++ (match email with
      | some x => if x ≠ "" then [("email", JVal.str x)] else []
      | none => [])
  ++ (match phone with
      | some x => if x ≠ "" then [("phone", JVal.str x)] else []
      | none => [])
  ++ (match company with
      | some x => if x ≠ "" then [("company", JVal.str x)] else []
      | none => [])
  ++ (match tags with
      | some ts => if ts ≠ [] then [("tags", JVal.arr (ts.map JVal.str))] else []
      | none => [])
  ++ (match notes with
      | some x => if x ≠ "" then [("notes", JVal.str x)] else []
      | none => [])

/-- `CreateContactTool._run`. -/
def CreateContactTool.run (backend : Oracle) (first_name last_name : String)
    (email phone company : Option String) (status : String)
    (tags : Option (List String)) (notes : Option String) :
    LCOut × List BackendCall :=
  let data := createContactToolBody first_name last_name email phone company status tags notes
  let c : BackendCall := ⟨Method.POST, "/api/contacts", data⟩
  match backend c with
  | Except.ok result => (LCOut.ok (JVal.obj result), [c])
  | Except.error e => (LCOut.toolError ("Failed to create contact: " ++ e), [c])

/-- `UpdateContactTool._run`: builds the PATCH body from `status` and `tags`
only (`add_tags` is accepted but unused — the source notes it would need
backend support). -/
def UpdateContactTool.run (backend : Oracle) (contact_id : String)
    (status : Option String) (tags add_tags : Option (List String)) :
    LCOut × List BackendCall :=
  let data : Dict :=
    (match status with
     | some x => if x ≠ "" then [("status", JVal.str x)] else []
     | none => [])
    ++ (match tags with
        | some ts => if ts ≠ [] then [("tags", JVal.arr (ts.map JVal.str))] else []
        | none => [])
  let c : BackendCall := ⟨Method.PATCH, "/api/contacts/" ++ contact_id, data⟩
  match backend c with
  | Except.ok result => (LCOut.ok (JVal.obj result), [c])
  | Except.error e => (LCOut.toolError ("Failed to update contact: " ++ e), [c])

/-- `LogInteractionTool._run`. -/
def LogInteractionTool.run (backend : Oracle) (contact_id ty content : String)
    (metadata : Option Dict) : LCOut × List BackendCall :=
  let data : Dict :=
    [("contact", JVal.str contact_id), ("type", JVal.str ty), ("content", JVal.str content)]
    ++ (match metadata with
        | some m => if m.isEmpty then [] else [("metadata", JVal.obj m)]
        | none => [])
  let c : BackendCall := ⟨Method.POST, "/api/timeline", data⟩
  match backend c with
  | Except.ok result => (LCOut.ok (JVal.obj result), [c])
  | Except.error e => (LCOut.toolError ("Failed to log interaction: " ++ e), [c])

/-- `GetPipelineSummaryTool._run`. -/
def GetPipelineSummaryTool.run (backend : Oracle) (time_range : String) :
    LCOut × List BackendCall :=
  let c : BackendCall := ⟨Method.GET, "/api/analytics/contacts", [("time_range", JVal.str time_range)]⟩
  match backend c with
  | Except.ok result => (LCOut.ok (JVal.obj result), [c])
  | Except.error e => (LCOut.toolError ("Failed to get pipeline summary: " ++ e), [c])

/-- The class-level metadata of a LangChain tool: its `name` and `description`
attributes (descriptions reproduced with punctuation normalized; only the
names participate in the claims below). -/
structure LCToolMeta where
  name : String
  description : String
deriving DecidableEq, Repr

/-- `CRMToolkit.get_langchain_tools`: the six tool instances, in source
order. -/
def CRMToolkit.get_langchain_tools : List LCToolMeta :=
  [⟨"search_contacts", "Search CRM contacts by name, company, status, tags, or engagement level. Use this to find people matching specific criteria. Returns contact summaries with IDs."⟩,
   ⟨"get_contact", "Get full details and recent interaction history for a specific contact. Use after search_contacts to dive deeper into the profile of a contact."⟩,
   ⟨"create_contact", "Add a new contact to the CRM. Use when you learn about a new person the user wants to track. Requires at least first and last name."⟩,
   ⟨"update_contact", "Update the information or status of a contact. Use to move contacts through the pipeline or update their details."⟩,
   ⟨"log_interaction", "Record an interaction with a contact (meeting, call, email, note). Always log interactions to maintain relationship context and history."⟩,
   ⟨"get_pipeline_summary", "Get current pipeline status - how many contacts in each stage, conversion rates, and engagement trends."⟩]

/-- `CRMToolkit.get_openai_functions`: the five function definitions, in source
order, as literal JSON values. -/
def CRMToolkit.get_openai_functions : List JVal :=
  [JVal.obj
    [("name", JVal.str "search_contacts"),
     ("description", JVal.str "Search CRM contacts by name, status, tags, or engagement level"),
     ("parameters", JVal.obj
       [("type", JVal.str "object"),
        ("properties", JVal.obj
          [("query", JVal.obj [("type", JVal.str "string"), ("description", JVal.str "Free-text search")]),
           ("status", JVal.obj [("type", JVal.str "string"),
             ("enum", JVal.arr [JVal.str "lead", JVal.str "customer", JVal.str "partner", JVal.str "investor"])]),
           ("tags", JVal.obj [("type", JVal.str "array"), ("items", JVal.obj [("type", JVal.str "string")])]),
           ("min_engagement", JVal.obj [("type", JVal.str "number")]),
           ("limit", JVal.obj [("type", JVal.str "integer"), ("default", JVal.num 20)])])])],
   JVal.obj
    [("name", JVal.str "get_contact"),
     ("description", JVal.str "Get full details for a specific contact"),
     ("parameters", JVal.obj
       [("type", JVal.str "object"),
        ("properties", JVal.obj
          [("contact_id", JVal.obj [("type", JVal.str "string"), ("description", JVal.str "Contact ID")]),
           ("include_timeline", JVal.obj [("type", JVal.str "boolean"), ("default", JVal.bool true)])]),
        ("required", JVal.arr [JVal.str "contact_id"])])],
   JVal.obj
    [("name", JVal.str "create_contact"),
     ("description", JVal.str "Add a new contact to the CRM"),
     ("parameters", JVal.obj
       [("type", JVal.str "object"),
        ("properties", JVal.obj
          [("first_name", JVal.obj [("type", JVal.str "string")]),
           ("last_name", JVal.obj [("type", JVal.str "string")]),
           ("email", JVal.obj [("type", JVal.str "string")]),
           ("phone", JVal.obj [("type", JVal.str "string")]),
           ("company", JVal.obj [("type", JVal.str "string")]),
           ("status", JVal.obj [("type", JVal.str "string"),
             ("enum", JVal.arr [JVal.str "lead", JVal.str "customer", JVal.str "partner", JVal.str "investor"])]),
           ("tags", JVal.obj [("type", JVal.str "array"), ("items", JVal.obj [("type", JVal.str "string")])]),
           ("notes", JVal.obj [("type", JVal.str "string")])]),
        ("required", JVal.arr [JVal.str "first_name", JVal.str "last_name"])])],
   JVal.obj
    [("name", JVal.str "log_interaction"),
     ("description", JVal.str "Record an interaction with a contact"),
     ("parameters", JVal.obj
       [("type", JVal.str "object"),
        ("properties", JVal.obj
          [("contact_id", JVal.obj [("type", JVal.str "string")]),
           ("type", JVal.obj [("type", JVal.str "string"),
             ("enum", JVal.arr [JVal.str "email_sent", JVal.str "call", JVal.str "meeting", JVal.str "note", JVal.str "social_touch"])]),
           ("content", JVal.obj [("type", JVal.str "string")]),
           ("metadata", JVal.obj [("type", JVal.str "object")])]),
        ("required", JVal.arr [JVal.str "contact_id", JVal.str "type", JVal.str "content"])])],
   JVal.obj
    [("name", JVal.str "get_pipeline_summary"),
     ("description", JVal.str "Get pipeline metrics and contact counts by status"),
     ("parameters", JVal.obj
       [("type", JVal.str "object"),
        ("properties", JVal.obj
          [("time_range", JVal.obj [("type", JVal.str "string"),
             ("enum", JVal.arr [JVal.str "7d", JVal.str "30d", JVal.str "90d", JVal.str "all"])])])])]]

/-- `CRMToolkit.get_claude_tools`: the five tool definitions, in source order,
as literal JSON values (parameter block under `input_schema`). -/
def CRMToolkit.get_claude_tools : List JVal :=
  [JVal.obj
    [("name", JVal.str "search_contacts"),
     ("description", JVal.str "Search CRM contacts by name, company, status, tags, or engagement level. Returns contact summaries with IDs for further operations."),
     ("input_schema", JVal.obj
       [("type", JVal.str "object"),
        ("properties", JVal.obj
          [("query", JVal.obj [("type", JVal.str "string"), ("description", JVal.str "Free-text search across name, email, company")]),
           ("status", JVal.obj [("type", JVal.str "string"),
             ("enum", JVal.arr [JVal.str "lead", JVal.str "customer", JVal.str "partner", JVal.str "investor"]),
             ("description", JVal.str "Filter by pipeline status")]),
           ("tags", JVal.obj [("type", JVal.str "array"), ("items", JVal.obj [("type", JVal.str "string")]),
             ("description", JVal.str "Filter by tags")]),
           ("min_engagement", JVal.obj [("type", JVal.str "number"), ("description", JVal.str "Minimum engagement score (0-100)")]),
           ("limit", JVal.obj [("type", JVal.str "integer"), ("description", JVal.str "Maximum results to return")])])])],
   JVal.obj
    [("name", JVal.str "get_contact"),
     ("description", JVal.str "Get full details and recent interaction history for a specific contact. Use after search_contacts to dive deeper."),
     ("input_schema", JVal.obj
       [("type", JVal.str "object"),
        ("properties", JVal.obj
          [("contact_id", JVal.obj [("type", JVal.str "string"), ("description", JVal.str "Contact ID from search results")]),
           ("include_timeline", JVal.obj [("type", JVal.str "boolean"), ("description", JVal.str "Include recent interactions")])]),
        ("required", JVal.arr [JVal.str "contact_id"])])],
   JVal.obj
    [("name", JVal.str "create_contact"),
     ("description", JVal.str "Add a new contact to the CRM. Use when you learn about a new person the user wants to track."),
     ("input_schema", JVal.obj
       [("type", JVal.str "object"),
        ("properties", JVal.obj
          [("first_name", JVal.obj [("type", JVal.str "string")]),
           ("last_name", JVal.obj [("type", JVal.str "string")]),
           ("email", JVal.obj [("type", JVal.str "string")]),
           ("phone", JVal.obj [("type", JVal.str "string")]),
           ("company", JVal.obj [("type", JVal.str "string")]),
           ("status", JVal.obj [("type", JVal.str "string"),
             ("enum", JVal.arr [JVal.str "lead", JVal.str "customer", JVal.str "partner", JVal.str "investor"])]),
           ("tags", JVal.obj [("type", JVal.str "array"), ("items", JVal.obj [("type", JVal.str "string")])]),
           ("notes", JVal.obj [("type", JVal.str "string")])]),
        ("required", JVal.arr [JVal.str "first_name", JVal.str "last_name"])])],
   JVal.obj
    [("name", JVal.str "log_interaction"),
     ("description", JVal.str "Record an interaction with a contact (meeting, call, email, note). Always log interactions to maintain relationship context."),
     ("input_schema", JVal.obj
       [("type", JVal.str "object"),
        ("properties", JVal.obj
          [("contact_id", JVal.obj [("type", JVal.str "string")]),
           ("type", JVal.obj [("type", JVal.str "string"),
             ("enum", JVal.arr [JVal.str "email_sent", JVal.str "call", JVal.str "meeting", JVal.str "note", JVal.str "social_touch"])]),
           ("content", JVal.obj [("type", JVal.str "string"), ("description", JVal.str "Summary of the interaction")]),
           ("metadata", JVal.obj [("type", JVal.str "object"), ("description", JVal.str "Additional data (duration, topics, etc.)")])]),
        ("required", JVal.arr [JVal.str "contact_id", JVal.str "type", JVal.str "content"])])],
   JVal.obj
    [("name", JVal.str "get_pipeline_summary"),
     ("description", JVal.str "Get current pipeline status - how many contacts in each stage, conversion rates, engagement trends."),
     ("input_schema", JVal.obj
       [("type", JVal.str "object"),
        ("properties", JVal.obj
          [("time_range", JVal.obj [("type", JVal.str "string"),
             ("enum", JVal.arr [JVal.str "7d", JVal.str "30d", JVal.str "90d", JVal.str "all"])])])])]]

/-- The `name` entry of an emitted schema object. -/
def schemaName : JVal → Option String
  | JVal.obj fs =>
    match fs.lookup "name" with
    | some (JVal.str s) => some s
    | _ => none
  | _ => none

/-- Names, in order, of the OpenAI function definitions. -/
def openaiFunctionNames : List String :=
  CRMToolkit.get_openai_functions.filterMap schemaName

/-- Names, in order, of the Claude tool definitions. -/
def claudeToolNames : List String :=
  CRMToolkit.get_claude_tools.filterMap schemaName

/-- Names, in order, of the LangChain tool instances. -/
def langchainToolNames : List String :=
  CRMToolkit.get_langchain_tools.map LCToolMeta.name

/-! ### Dispatcher (`handle_openai_function_call` / `handle_claude_tool_use`)

The handler unpacks the loosely-typed argument dict into the keyword
parameters of the matching facade method (`handler(**args)` in the source).
A key that does not name a parameter, a missing required parameter, or a value
that does not fit the declared type hint is a `TypeError` raised inside the
handler body, hence caught by its catch-all `except` and returned as an error
payload. -/

/-- Keyword binding check: every supplied key must name a parameter. -/
def keysAllowed (allowed : List String) (args : Dict) : Bool :=
  args.all (fun p => allowed.contains p.1)

/-- Decode an optional string-hinted keyword (absent or `None` means the
`None` default). -/
def decodeOptStr : Option JVal → Except String (Option String)
  | none => Except.ok none
  | some JVal.null => Except.ok none
  | some (JVal.str s) => Except.ok (some s)
  | some _ => Except.error "TypeError: expected a string"

/-- Decode an optional list-of-strings keyword. -/
def decodeOptStrList : Option JVal → Except String (Option (List String))
  | none => Except.ok none
  | some JVal.null => Except.ok none
  | some (JVal.arr xs) =>
    (xs.mapM (fun v =>
      match v with
      | JVal.str s => Except.ok s
      | _ => Except.error "TypeError: expected a string")).map some
  | some _ => Except.error "TypeError: expected a list of strings"

/-- Decode an optional numeric keyword. -/
def decodeOptNum : Option JVal → Except String (Option Int)
  | none => Except.ok none
  | some JVal.null => Except.ok none
  | some (JVal.num n) => Except.ok (some n)
  | some _ => Except.error "TypeError: expected a number"

/-- Decode an integer keyword with a default for the absent case. -/
def decodeIntD (d : Int) : Option JVal → Except String Int
  | none => Except.ok d
  | some (JVal.num n) => Except.ok n
  | some _ => Except.error "TypeError: expected an integer"

/-- Decode a boolean keyword with a default for the absent case. -/
def decodeBoolD (d : Bool) : Option JVal → Except String Bool
  | none => Except.ok d
  | some (JVal.bool b) => Except.ok b
  | some _ => Except.error "TypeError: expected a boolean"

/-- Decode a string keyword with a default for the absent case. -/
def decodeStrD (d : String) : Option JVal → Except String String
  | none => Except.ok d
  | some (JVal.str s) => Except.ok s
  | some _ => Except.error "TypeError: expected a string"

/-- Decode a required string keyword (absence is a `TypeError`: missing
required positional argument). -/
def decodeStrReq : Option JVal → Except String String
  | none => Except.error "TypeError: missing a required argument"
  | some (JVal.str s) => Except.ok s
  | some _ => Except.error "TypeError: expected a string"

/-- Decode an optional dict keyword. -/
def decodeOptDict : Option JVal → Except String (Option Dict)
  | none => Except.ok none
  | some JVal.null => Except.ok none
  | some (JVal.obj fs) => Except.ok (some fs)
  | some _ => Except.error "TypeError: expected an object"

/-- `self.search_contacts(**args)` as invoked by the dispatcher. -/
def runSearchHandler (backend : Oracle) (args : Dict) :
    Except String Dict × List BackendCall :=
  if !keysAllowed ["query", "status", "tags", "min_engagement", "limit"] args then
    (Except.error "TypeError: unexpected keyword argument", [])
  else
    match (do
      let q ← decodeOptStr (args.lookup "query")
      let s ← decodeOptStr (args.lookup "status")
      let t ← decodeOptStrList (args.lookup "tags")
      let m ← decodeOptNum (args.lookup "min_engagement")
      let l ← decodeIntD 20 (args.lookup "limit")
      pure (q, s, t, m, l) :
      Except String (Option String × Option String × Option (List String) × Option Int × Int)) with
    | Except.error e => (Except.error e, [])
    | Except.ok (q, s, t, m, l) => CRMToolkit.search_contacts backend q s t m l

/-- `self.get_contact(**args)` as invoked by the dispatcher. -/
def runGetContactHandler (backend : Oracle) (args : Dict) :
    Except String Dict × List BackendCall :=
  if !keysAllowed ["contact_id", "include_timeline"] args then
    (Except.error "TypeError: unexpected keyword argument", [])
  else
    match (do
      let cid ← decodeStrReq (args.lookup "contact_id")
      let itl ← decodeBoolD true (args.lookup "include_timeline")
      pure (cid, itl) : Except String (String × Bool)) with
    | Except.error e => (Except.error e, [])
    | Except.ok (cid, itl) => CRMToolkit.get_contact backend cid itl

/-- `self.log_interaction(**args)` as invoked by the dispatcher. -/
def runLogInteractionHandler (backend : Oracle) (args : Dict) :
    Except String Dict × List BackendCall :=
  if !keysAllowed ["contact_id", "type", "content", "metadata"] args then
    (Except.error "TypeError: unexpected keyword argument", [])
  else
    match (do
      let cid ← decodeStrReq (args.lookup "contact_id")
      let ty ← decodeStrReq (args.lookup "type")
      let content ← decodeStrReq (args.lookup "content")
      let md ← decodeOptDict (args.lookup "metadata")
      pure (cid, ty, content, md) :
      Except String (String × String × String × Option Dict)) with
    | Except.error e => (Except.error e, [])
    | Except.ok (cid, ty, content, md) =>
      CRMToolkit.log_interaction backend cid ty content md

/-- `self.get_pipeline_summary(**args)` as invoked by the dispatcher. -/
def runPipelineHandler (backend : Oracle) (args : Dict) :
    Except String Dict × List BackendCall :=
  if !keysAllowed ["time_range"] args then
    (Except.error "TypeError: unexpected keyword argument", [])
  else
    match decodeStrD "30d" (args.lookup "time_range") with
    | Except.error e => (Except.error e, [])
    | Except.ok tr => CRMToolkit.get_pipeline_summary backend tr

/-- Keys of the `handlers` dict in `handle_openai_function_call`, in source
order. `update_contact` is not among them. -/
def handlerNames : List String :=
  ["search_contacts", "get_contact", "create_contact", "log_interaction",
   "get_pipeline_summary"]

/-- Run the handler selected from the `handlers` dict. Success values are the
dict passed to `json.dumps` (wrapped as a JSON object); `create_contact`
forwards the argument dict unchanged (`**kwargs` accepts any keys). -/
def runHandler (backend : Oracle) (name : String) (args : Dict) :
    Except String JVal × List BackendCall :=
  let lift : Except String Dict × List BackendCall → Except String JVal × List BackendCall :=
    fun r => (r.1.map JVal.obj, r.2)
  if name = "search_contacts" then lift (runSearchHandler backend args)
  else if name = "get_contact" then lift (runGetContactHandler backend args)
  else if name = "create_contact" then lift (CRMToolkit.create_contact backend args)
  else if name = "log_interaction" then lift (runLogInteractionHandler backend args)
  else if name = "get_pipeline_summary" then lift (runPipelineHandler backend args)
  else (Except.error "unreachable: guarded by the membership test", [])

/-- `CRMToolkit.handle_openai_function_call`: unknown names yield the
`Unknown function` error payload without touching the backend; otherwise the
selected handler runs inside a catch-all `try`, and any exception message is
returned as the error payload. The result is the value handed to
`json.dumps`. -/
def CRMToolkit.handle_openai_function_call (backend : Oracle)
    (function_name : String) (arguments : Dict) : JVal × List BackendCall :=
  if !handlerNames.contains function_name then
    (JVal.obj [("error", JVal.str ("Unknown function: " ++ function_name))], [])
  else
    match runHandler backend function_name arguments with
    | (Except.ok v, calls) => (v, calls)
    | (Except.error e, calls) => (JVal.obj [("error", JVal.str e)], calls)

/-- `CRMToolkit.handle_claude_tool_use`: delegates to the OpenAI handler. -/
def CRMToolkit.handle_claude_tool_use (backend : Oracle) (tool_name : String)
    (tool_input : Dict) : JVal × List BackendCall :=
  CRMToolkit.handle_openai_function_call backend tool_name tool_input

/-! ### Concrete oracles and inputs used by witnesses and counterexamples -/

/-- A backend that answers every call with the empty JSON object. -/
def okBackend : Oracle := fun _ => Except.ok []

/-- A backend whose every call raises an exception with message `boom`. -/
def failBackend : Oracle := fun _ => Except.error "boom"

/-- A backend serving one contact `c1` and its timeline. -/
def demoBackend : Oracle := fun c =>
  if c.path = "/api/contacts/c1" then Except.ok [("id", JVal.str "c1")]
  else if c.path = "/api/contacts/c1/timeline" then
    Except.ok [("events", JVal.arr [])]
  else Except.error "404"

/-- The argument dict of a `create_contact` call supplying only the two
names. -/
def adaArgs : Dict :=
  [("first_name", JVal.str "Ada"), ("last_name", JVal.str "Lovelace")]

/-- A transport answering every request with HTTP status 304 and an empty JSON
object body. -/
def t304 : Transport := fun _ => Except.ok ⟨304, Except.ok []⟩

/-- A transport answering every request with HTTP status 500. -/
def t500 : Transport := fun _ => Except.ok ⟨500, Except.error "not json"⟩

/-- Field of a JSON object, `none` on a non-object or a missing key. -/
def jfield (v : JVal) (k : String) : Option JVal :=
  match v with
  | JVal.obj fs => fs.lookup k
  | _ => none

/-! ### Helper lemmas -/

/-- After `d[k] = v`, looking up `k` yields `v`. -/
theorem dictSet_lookup (d : Dict) (k : String) (v : JVal) :
    (dictSet d k v).lookup k = some v := by
  induction d with
  | nil => simp [dictSet, List.lookup]
  | cons p t ih =>
    obtain ⟨a, b⟩ := p
    by_cases h : a = k
    · simp [dictSet, h, List.lookup]
    · have hk : (k == a) = false := by
        exact beq_false_of_ne (Ne.symm h)
      simp [dictSet, h, List.lookup, hk, ih]

/-! ### Claims -/

/-- C1 counterexample: the LangChain adapter's name sequence is not identical
to the OpenAI adapter's — `update_contact` is present in the LangChain output
only — so the three sequences are not all equal. -/
theorem adapter_name_sequences_not_identical :
    langchainToolNames ≠ openaiFunctionNames
    ∧ langchainToolNames.contains "update_contact" = true
    ∧ openaiFunctionNames.contains "update_contact" = false
    ∧ claudeToolNames.contains "update_contact" = false :=
  ⟨by decide, by decide, by decide, by decide⟩

/-- C1 (amended): the OpenAI and Claude adapters emit the same five operation
names in the same order; the LangChain adapter emits those five in the same
relative order with `update_contact` additionally present between
`create_contact` and `log_interaction`. -/
theorem adapter_name_sequences :
    claudeToolNames = openaiFunctionNames
    ∧ openaiFunctionNames =
        ["search_contacts", "get_contact", "create_contact", "log_interaction",
         "get_pipeline_summary"]
    ∧ langchainToolNames =
        openaiFunctionNames.take 3 ++ ["update_contact"] ++ openaiFunctionNames.drop 3 :=
  ⟨by decide, by decide, by decide⟩

/-- C2 counterexample: dispatching `create_contact` with only the two names
POSTs the argument dict itself, whose `status` key is absent — not the claimed
body with `status: "lead"`. -/
theorem create_contact_dispatch_body_no_status :
    (CRMToolkit.handle_openai_function_call okBackend "create_contact" adaArgs).2 =
      [⟨Method.POST, "/api/contacts", adaArgs⟩]
    ∧ adaArgs.lookup "status" = none
    ∧ adaArgs.lookup "first_name" = some (JVal.str "Ada")
    ∧ adaArgs.lookup "last_name" = some (JVal.str "Lovelace") :=
  ⟨rfl, rfl, rfl, rfl⟩

/-- C2 (amended): with only `first_name="Ada"`, `last_name="Lovelace"`, the
LangChain tool POSTs exactly the three keys first_name, last_name and the
default status `lead`; the direct facade method and the dispatch handler POST
exactly the two supplied keys, with no status key and no optional keys. -/
theorem create_contact_bodies_by_path (backend : Oracle) :
    (CreateContactTool.run backend "Ada" "Lovelace" none none none "lead" none none).2 =
      [⟨Method.POST, "/api/contacts",
        [("first_name", JVal.str "Ada"), ("last_name", JVal.str "Lovelace"),
         ("status", JVal.str "lead")]⟩]
    ∧ (CRMToolkit.create_contact backend adaArgs).2 =
        [⟨Method.POST, "/api/contacts", adaArgs⟩]
    ∧ (CRMToolkit.handle_openai_function_call backend "create_contact" adaArgs).2 =
        [⟨Method.POST, "/api/contacts", adaArgs⟩]
    ∧ adaArgs = [("first_name", JVal.str "Ada"), ("last_name", JVal.str "Lovelace")]
    ∧ adaArgs.lookup "status" = none := by
  refine ⟨?_, rfl, ?_, rfl, rfl⟩
  · cases hb : backend ⟨Method.POST, "/api/contacts",
        createContactToolBody "Ada" "Lovelace" none none none "lead" none none⟩ <;>
      simp [CreateContactTool.run, hb] <;> rfl
  · cases hb : backend ⟨Method.POST, "/api/contacts", adaArgs⟩ <;>
      simp [CRMToolkit.handle_openai_function_call, runHandler,
        CRMToolkit.create_contact, handlerNames, hb, Except.map]

/-- C3 counterexample: dispatching an unknown operation name returns a payload
with a single `error` key whose message names the operation; the payload has
no `ok` field and no `kind` field, so it is not of the claimed
`ok:false, kind:"UnknownOperation"` shape. -/
theorem unknown_operation_shape :
    CRMToolkit.handle_openai_function_call okBackend "frobnicate" [] =
      (JVal.obj [("error", JVal.str "Unknown function: frobnicate")], [])
    ∧ jfield (CRMToolkit.handle_openai_function_call okBackend "frobnicate" []).1 "ok" = none
    ∧ jfield (CRMToolkit.handle_openai_function_call okBackend "frobnicate" []).1 "kind" = none
    ∧ jfield (CRMToolkit.handle_openai_function_call okBackend "frobnicate" []).1 "error" =
        some (JVal.str "Unknown function: frobnicate") :=
  ⟨rfl, rfl, rfl, rfl⟩

/-- C3 (amended): for every argument mapping, dispatching an operation name
outside the handlers dict returns (never raises) the payload whose single
`error` entry is `Unknown function: <name>`, and issues no backend call. -/
theorem unknown_operation_behavior (backend : Oracle) (name : String) (args : Dict)
    (h : handlerNames.contains name = false) :
    CRMToolkit.handle_openai_function_call backend name args =
      (JVal.obj [("error", JVal.str ("Unknown function: " ++ name))], []) := by
  have h2 : ¬ (name ∈ handlerNames) := by simpa using h
  simp [CRMToolkit.handle_openai_function_call, h2]

/-- C3 witness: the amended theorem applied to the concrete unknown name
`delete_contact`. -/
theorem unknown_operation_behavior_witness :
    handlerNames.contains "delete_contact" = false
    ∧ CRMToolkit.handle_openai_function_call okBackend "delete_contact" [] =
        (JVal.obj [("error", JVal.str "Unknown function: delete_contact")], []) :=
  ⟨by decide, unknown_operation_behavior okBackend "delete_contact" [] (by decide)⟩

/-- C4 counterexample: on the same failing backend, the dispatcher returns the
error payload with message `boom`, while the LangChain search tool raises a
ToolException with a different message rather than returning a payload; and
for the same `create_contact` request the LangChain tool POSTs a body with a
`status` key while the dispatcher path POSTs one without — the calling
conventions do not all share one funnel. -/
theorem adapter_shapes_differ :
    SearchContactsTool.run failBackend none none none none 20 =
      (LCOut.toolError "Failed to search contacts: boom",
       [⟨Method.GET, "/api/contacts", [("limit", JVal.num 20)]⟩])
    ∧ CRMToolkit.handle_openai_function_call failBackend "search_contacts" [] =
        (JVal.obj [("error", JVal.str "boom")],
         [⟨Method.GET, "/api/contacts", [("limit", JVal.num 20)]⟩])
    ∧ "Failed to search contacts: boom" ≠ "boom"
    ∧ ((CreateContactTool.run okBackend "Ada" "Lovelace" none none none "lead" none none).2.map
        (fun c => c.payload.lookup "status")) = [some (JVal.str "lead")]
    ∧ ((CRMToolkit.handle_openai_function_call okBackend "create_contact" adaArgs).2.map
        (fun c => c.payload.lookup "status")) = [none] :=
  ⟨rfl, rfl, by decide, rfl, rfl⟩

/-- C4 (amended): the OpenAI function-call handler and the Claude tool-use
handler do share a single dispatch funnel — `handle_claude_tool_use` delegates
to `handle_openai_function_call` — so for every operation name and argument
mapping those two calling conventions produce identical success and error
payloads and identical backend calls; the LangChain tools execute outside this
funnel. -/
theorem claude_openai_single_funnel (backend : Oracle) (name : String) (args : Dict) :
    CRMToolkit.handle_claude_tool_use backend name args =
      CRMToolkit.handle_openai_function_call backend name args := rfl

/-- C5: dispatching or calling `get_contact` with `include_timeline=true`
issues exactly two backend GETs in order (contact, then timeline) and returns
the contact with the timeline merged under the `timeline` key; with
`include_timeline=false` it issues exactly one GET and returns the contact
unchanged, hence without a `timeline` key. -/
theorem get_contact_timeline_behavior (backend : Oracle) (cid : String) (d t : Dict)
    (h1 : backend ⟨Method.GET, "/api/contacts/" ++ cid, []⟩ = Except.ok d)
    (h2 : backend ⟨Method.GET, "/api/contacts/" ++ cid ++ "/timeline", []⟩ = Except.ok t)
    (h3 : d.lookup "timeline" = none) :
    CRMToolkit.get_contact backend cid true =
      (Except.ok (dictSet d "timeline" (JVal.obj t)),
       [⟨Method.GET, "/api/contacts/" ++ cid, []⟩,
        ⟨Method.GET, "/api/contacts/" ++ cid ++ "/timeline", []⟩])
    ∧ (dictSet d "timeline" (JVal.obj t)).lookup "timeline" = some (JVal.obj t)
    ∧ CRMToolkit.get_contact backend cid false =
        (Except.ok d, [⟨Method.GET, "/api/contacts/" ++ cid, []⟩])
    ∧ d.lookup "timeline" = none
    ∧ CRMToolkit.handle_openai_function_call backend "get_contact"
        [("contact_id", JVal.str cid), ("include_timeline", JVal.bool true)] =
      (JVal.obj (dictSet d "timeline" (JVal.obj t)),
       [⟨Method.GET, "/api/contacts/" ++ cid, []⟩,
        ⟨Method.GET, "/api/contacts/" ++ cid ++ "/timeline", []⟩])
    ∧ CRMToolkit.handle_openai_function_call backend "get_contact"
        [("contact_id", JVal.str cid), ("include_timeline", JVal.bool false)] =
      (JVal.obj d, [⟨Method.GET, "/api/contacts/" ++ cid, []⟩])
    ∧ GetContactTool.run backend cid true =
        (LCOut.ok (JVal.obj (dictSet d "timeline" (JVal.obj t))),
         [⟨Method.GET, "/api/contacts/" ++ cid, []⟩,
          ⟨Method.GET, "/api/contacts/" ++ cid ++ "/timeline", []⟩])
    ∧ GetContactTool.run backend cid false =
        (LCOut.ok (JVal.obj d), [⟨Method.GET, "/api/contacts/" ++ cid, []⟩]) := by
  refine ⟨?_, dictSet_lookup d "timeline" _, ?_, h3, ?_, ?_, ?_, ?_⟩ <;>
    simp [CRMToolkit.get_contact, GetContactTool.run,
      CRMToolkit.handle_openai_function_call, runHandler, runGetContactHandler,
      keysAllowed, handlerNames, decodeStrReq, decodeBoolD, h1, h2, Except.map,
      List.lookup, Except.bind, Except.pure, bind, pure]

/-- C5 witness: the theorem applied to the concrete backend serving contact
`c1`. -/
theorem get_contact_timeline_behavior_witness :
    CRMToolkit.get_contact demoBackend "c1" true =
      (Except.ok [("id", JVal.str "c1"), ("timeline", JVal.obj [("events", JVal.arr [])])],
       [⟨Method.GET, "/api/contacts/c1", []⟩, ⟨Method.GET, "/api/contacts/c1/timeline", []⟩]) :=
  (get_contact_timeline_behavior demoBackend "c1" [("id", JVal.str "c1")]
    [("events", JVal.arr [])] rfl rfl rfl).1

/-- C6: the dispatch entry points are total functions — both return, for every
backend behavior, either the success payload or the `error` payload: an
unknown name becomes the `Unknown function` payload without any backend call,
and every exception raised inside a handler (TypeError from argument binding,
backend failure) is captured into the `error` payload; nothing escapes. -/
theorem dispatch_captures_all_failures (backend : Oracle) (name : String) (args : Dict) :
    CRMToolkit.handle_claude_tool_use backend name args =
      CRMToolkit.handle_openai_function_call backend name args
    ∧ (handlerNames.contains name = false →
        CRMToolkit.handle_openai_function_call backend name args =
          (JVal.obj [("error", JVal.str ("Unknown function: " ++ name))], []))
    ∧ (handlerNames.contains name = true →
        ∀ e calls, runHandler backend name args = (Except.error e, calls) →
          CRMToolkit.handle_openai_function_call backend name args =
            (JVal.obj [("error", JVal.str e)], calls))
    ∧ (handlerNames.contains name = true →
        ∀ v calls, runHandler backend name args = (Except.ok v, calls) →
          CRMToolkit.handle_openai_function_call backend name args = (v, calls)) := by
  refine ⟨rfl, fun h => ?_, fun h e calls hr => ?_, fun h v calls hr => ?_⟩
  · have h2 : ¬ (name ∈ handlerNames) := by simpa using h
    simp [CRMToolkit.handle_openai_function_call, h, h2]
  · have h2 : name ∈ handlerNames := by simpa using h
    simp [CRMToolkit.handle_openai_function_call, h, h2, hr]
  · have h2 : name ∈ handlerNames := by simpa using h
    simp [CRMToolkit.handle_openai_function_call, h, h2, hr]

/-- C6 witness: on a backend whose every call raises `boom`, dispatching
`search_contacts` returns the captured error payload. -/
theorem dispatch_captures_all_failures_witness :
    CRMToolkit.handle_openai_function_call failBackend "search_contacts" [] =
      (JVal.obj [("error", JVal.str "boom")],
       [⟨Method.GET, "/api/contacts", [("limit", JVal.num 20)]⟩]) :=
  (dispatch_captures_all_failures failBackend "search_contacts" []).2.2.1 (by decide)
    "boom" [⟨Method.GET, "/api/contacts", [("limit", JVal.num 20)]⟩] rfl

/-- C7 counterexample: a response with HTTP status 304 — outside [200,300) —
does not fail: `raise_for_status` only raises on 4xx/5xx, so the parsed body
is returned. -/
theorem client_3xx_not_raised :
    CRMClient.get t304 "/api/contacts/x" [] =
      (Except.ok [], [⟨Method.GET, "/api/contacts/x", []⟩])
    ∧ ¬(200 ≤ 304 ∧ 304 < 300) :=
  ⟨rfl, by decide⟩

/-- C7 (amended): every Backend Client call (get, post, patch, delete) issues
exactly one request (no retries); a transport failure raises a transport
error; an HTTP status in [400,600) — and only such a status — raises an error
carrying the status code; on any other status, [200,300) included, the parsed
JSON body is returned. -/
theorem client_error_semantics (t : Transport) (req : BackendCall) :
    (∀ e, t req = Except.error e →
      sessionCall t req = (Except.error (ClientError.transport e), [req]))
    ∧ (∀ resp d, t req = Except.ok resp → ¬(400 ≤ resp.status ∧ resp.status < 600) →
        resp.jsonBody = Except.ok d →
        sessionCall t req = (Except.ok d, [req]))
    ∧ (∀ resp, t req = Except.ok resp → 400 ≤ resp.status → resp.status < 500 →
        sessionCall t req = (Except.error (ClientError.http resp.status "Client Error"), [req]))
    ∧ (∀ resp, t req = Except.ok resp → 500 ≤ resp.status → resp.status < 600 →
        sessionCall t req = (Except.error (ClientError.http resp.status "Server Error"), [req]))
    ∧ (sessionCall t req).2 = [req]
    ∧ (∀ p q, CRMClient.get t p q = sessionCall t ⟨Method.GET, p, q⟩)
    ∧ (∀ p b, CRMClient.post t p b = sessionCall t ⟨Method.POST, p, b⟩)
    ∧ (∀ p b, CRMClient.patch t p b = sessionCall t ⟨Method.PATCH, p, b⟩)
    ∧ (∀ p, CRMClient.delete t p = sessionCall t ⟨Method.DELETE, p, []⟩) := by
  refine ⟨fun e he => ?_, fun resp d hr hs hb => ?_, fun resp hr h4 h5 => ?_,
    fun resp hr h5 h6 => ?_, rfl, fun _ _ => rfl, fun _ _ => rfl, fun _ _ => rfl, fun _ => rfl⟩
  · simp [sessionCall, he]
  · have hA : ¬(400 ≤ resp.status ∧ resp.status < 500) := by omega
    have hB : ¬(500 ≤ resp.status ∧ resp.status < 600) := by omega
    simp [sessionCall, hr, raise_for_status, hA, hB, hb]
  · have hA : 400 ≤ resp.status ∧ resp.status < 500 := ⟨h4, h5⟩
    simp [sessionCall, hr, raise_for_status, hA]
  · have hA : ¬(400 ≤ resp.status ∧ resp.status < 500) := by omega
    have hB : 500 ≤ resp.status ∧ resp.status < 600 := ⟨h5, h6⟩
    simp [sessionCall, hr, raise_for_status, hA, hB]

/-- C7 witness: the amended theorem applied to a transport answering 500. -/
theorem client_error_semantics_witness :
    sessionCall t500 ⟨Method.GET, "/api/analytics/contacts", []⟩ =
      (Except.error (ClientError.http 500 "Server Error"),
       [⟨Method.GET, "/api/analytics/contacts", []⟩]) :=
  (client_error_semantics t500 ⟨Method.GET, "/api/analytics/contacts", []⟩).2.2.2.1
    ⟨500, Except.error "not json"⟩ rfl (by decide) (by decide)

/-- C8 counterexample: the Facade constructor accepts only `base_url` and
`api_key`; whatever is supplied, the resulting configuration has the default
timeout 30, so a timeout (such as 5) cannot be supplied at Facade
construction. -/
theorem facade_timeout_not_suppliable :
    (∀ base_url api_key, (CRMToolkit.init base_url api_key).timeout = 30)
    ∧ (30 : Int) ≠ 5 :=
  ⟨fun _ _ => rfl, by decide⟩

/-- C8 (amended): base URL (default the loopback address
`http://localhost:8080`) and the optional bearer credential can be supplied at
Facade construction; the timeout field exists in `CRMConfig` (default 30) but
the Facade constructor always leaves it at the default; the client stores the
configuration unchanged (the embedding is pure — nothing mutates it). -/
theorem config_construction (base_url : String) (api_key : Option String) :
    CRMConfig.default =
      { base_url := "http://localhost:8080", api_key := none, timeout := 30 }
    ∧ CRMToolkit.init base_url api_key =
        { base_url := base_url, api_key := api_key, timeout := 30 }
    ∧ (CRMClient.init (CRMToolkit.init base_url api_key)).config =
        CRMToolkit.init base_url api_key :=
  ⟨rfl, rfl, rfl⟩

/-- C9: for every argument mapping, dispatching `update_contact` through
either handler returns the unknown-function payload and performs no backend
call, although `update_contact` is a LangChain tool and a direct facade
method (which PATCHes the contact). -/
theorem update_contact_not_dispatchable (backend : Oracle) (args : Dict) :
    CRMToolkit.handle_openai_function_call backend "update_contact" args =
      (JVal.obj [("error", JVal.str "Unknown function: update_contact")], [])
    ∧ CRMToolkit.handle_claude_tool_use backend "update_contact" args =
        (JVal.obj [("error", JVal.str "Unknown function: update_contact")], [])
    ∧ handlerNames.contains "update_contact" = false
    ∧ langchainToolNames.contains "update_contact" = true
    ∧ (∀ cid kwargs, CRMToolkit.update_contact backend cid kwargs =
        (backend ⟨Method.PATCH, "/api/contacts/" ++ cid, kwargs⟩,
         [⟨Method.PATCH, "/api/contacts/" ++ cid, kwargs⟩])) :=
  ⟨rfl, rfl, by decide, by decide, fun _ _ => rfl⟩

/-- C10: in `search_contacts` (facade method and LangChain tool alike), an
optional argument supplied with a falsy value — empty `query` or `status`,
empty `tags` list, `min_engagement` zero — produces the identical backend
call as the argument being absent; `limit` is always included. -/
theorem search_falsy_args_omitted (backend : Oracle) (q s : Option String)
    (t : Option (List String)) (m : Option Int) (l : Int) :
    CRMToolkit.search_contacts backend (some "") s t m l =
      CRMToolkit.search_contacts backend none s t m l
    ∧ CRMToolkit.search_contacts backend q (some "") t m l =
        CRMToolkit.search_contacts backend q none t m l
    ∧ CRMToolkit.search_contacts backend q s (some []) m l =
        CRMToolkit.search_contacts backend q s none m l
    ∧ CRMToolkit.search_contacts backend q s t (some 0) l =
        CRMToolkit.search_contacts backend q s t none l
    ∧ SearchContactsTool.run backend (some "") s t m l =
        SearchContactsTool.run backend none s t m l
    ∧ SearchContactsTool.run backend q s t (some 0) l =
        SearchContactsTool.run backend q s t none l
    ∧ (searchParams q s t m l).lookup "limit" = some (JVal.num l) :=
  ⟨rfl, rfl, rfl, rfl, rfl, rfl, rfl⟩
